import Mathlib

/-!
# Verification of the PI trading bot (src/main.py)

Shallow embedding of the bot's decision and state-transition logic.
Prices, balances and thresholds are modelled as rationals (Python floats
carry exact decimal literals in every claim we settle); wall-clock time is
modelled as whole seconds (`Nat`).  Exchange and Telegram I/O are modelled
by their outcomes: an order placement either succeeds or raises
(`orderOk : Bool`), a balance fetch yields the fetched value (`0` on
failure, matching `get_available_balance`), and each Telegram send is
recorded as an abstract message tag.  The occasional random "analysis"
message of the loop is carried as a tag as well; it touches no state.
-/

/-- Position / cooldown state: the module-level globals `in_position`,
`entry_price`, `last_trade_time` of main.py.  `last_trade_time` is `none`
at startup (Python `None`) and `some t` with `t` an absolute time in
seconds afterwards. -/
structure BotState where
  in_position : Bool
  entry_price : ℚ
  last_trade_time : Option ℕ
  deriving Repr, DecidableEq

/-- Mutable trading parameters: `BASE_ORDER_SIZE`, `PROFIT_THRESHOLD`,
`STOP_LOSS` of main.py (mutated only by `set_params_command`). -/
structure Params where
  BASE_ORDER_SIZE : ℚ
  PROFIT_THRESHOLD : ℚ
  STOP_LOSS : ℚ
  deriving Repr, DecidableEq

/-- The initial values of the three parameters (main.py lines 35–37). -/
def defaultParams : Params :=
  { BASE_ORDER_SIZE := 85/100, PROFIT_THRESHOLD := 3/100, STOP_LOSS := 5/100 }

/-- `VOLATILITY_THRESHOLD = 0.02` (main.py line 38). -/
def VOLATILITY_THRESHOLD : ℚ := 2/100

/-- `TRADE_COOLDOWN = 300` seconds (main.py line 42). -/
def TRADE_COOLDOWN : ℕ := 300

/-- Startup state: `in_position = False`, `entry_price = 0`,
`last_trade_time = None` (main.py lines 80–82). -/
def initState : BotState :=
  { in_position := false, entry_price := 0, last_trade_time := none }

/-- Exit reasons passed to `sell_pi` ("profit", "stop_loss", "manual"). -/
inductive ExitReason where
  | profit
  | stop_loss
  | manual
  deriving Repr, DecidableEq

/-- Abstract tags for the Telegram notifications a step emits. -/
inductive Msg where
  | balanceTooLow      -- "available USDT balance is too low ..."
  | buySummary         -- buy trade summary
  | buyFailed          -- "the buy order failed to execute"
  | dustPosition       -- "PI position too small to sell"
  | sellSummary        -- sell trade summary (profit / stop-loss template)
  | sellFailed         -- "the sell order failed to execute"
  | alreadyInPosition  -- "Already in position, sir."
  | noPosition         -- "No position to sell, sir."
  | manualBuyAck       -- "Manual override accepted."
  | manualSellAck      -- "Manual sell protocol initiated."
  | analysisChatter    -- random JARVIS_ANALYSIS_MESSAGES line
  | paramsUpdated      -- "Parameters updated successfully"
  | paramsUsage        -- "Incorrect parameters. Format: ..."
  | paramsError        -- "Error updating parameters: ..."
  deriving Repr, DecidableEq

/-- Result of a buy/sell helper or of one loop/command step: the state left
behind, how many exchange orders of each side were submitted, whether a
buy / sell completed, and the notifications sent. -/
structure TradeResult where
  state : BotState
  buyAttempts : ℕ
  sellAttempts : ℕ
  buySucceeded : Bool
  sellSucceeded : Bool
  msgs : List Msg
  deriving Repr, DecidableEq

/-- A step that places no order and leaves the state alone. -/
def noop (s : BotState) (ms : List Msg) : TradeResult :=
  { state := s, buyAttempts := 0, sellAttempts := 0,
    buySucceeded := false, sellSucceeded := false, msgs := ms }

/-- `buy_pi(current_price)` (main.py lines 185–224).  `balance` is the
value returned by `get_available_balance` (0 when the fetch failed);
`orderOk = false` models `create_market_buy_order` raising, in which case
the `except` branch leaves every global untouched and notifies.  The
position globals are assigned only after the order call returns. -/
def buy_pi (p : Params) (s : BotState) (now : ℕ) (current_price balance : ℚ)
    (orderOk : Bool) : TradeResult :=
  let order_size_usdt := balance * p.BASE_ORDER_SIZE
  if order_size_usdt < 10 then
    noop s [Msg.balanceTooLow]
  else if orderOk then
    { state := { in_position := true, entry_price := current_price,
                 last_trade_time := some now },
      buyAttempts := 1, sellAttempts := 0,
      buySucceeded := true, sellSucceeded := false,
      msgs := [Msg.buySummary] }
  else
    { state := s, buyAttempts := 1, sellAttempts := 0,
      buySucceeded := false, sellSucceeded := false,
      msgs := [Msg.buyFailed] }

/-- `entry_value = pi_amount * entry_price` (main.py line 244). -/
def entry_value (pi_amount entry_price : ℚ) : ℚ := pi_amount * entry_price

/-- `exit_value = pi_amount * current_price` (main.py line 245). -/
def exit_value (pi_amount current_price : ℚ) : ℚ := pi_amount * current_price

/-- `profit_loss = exit_value - entry_value` (main.py line 246). -/
def profit_loss (pi_amount entry_price current_price : ℚ) : ℚ :=
  exit_value pi_amount current_price - entry_value pi_amount entry_price

/-- `profit_percent = (profit_loss / entry_value) * 100` (main.py line
247): the P/L ratio denominated in percent, printed as `...%`. -/
def profit_percent (pi_amount entry_price current_price : ℚ) : ℚ :=
  profit_loss pi_amount entry_price current_price
    / entry_value pi_amount entry_price * 100

/-- `sell_pi(current_price, reason)` (main.py lines 227–278).
`pi_amount` is the free PI balance fetched inside the `try`; `orderOk =
false` models `create_market_sell_order` raising (no global is assigned
before the order call).  On success `in_position` and `last_trade_time`
are updated; `entry_price` is left as it was. -/
def sell_pi (s : BotState) (now : ℕ) (current_price pi_amount : ℚ)
    (_reason : ExitReason) (orderOk : Bool) : TradeResult :=
  if pi_amount * current_price < 10 then
    noop s [Msg.dustPosition]
  else if orderOk then
    { state := { in_position := false, entry_price := s.entry_price,
                 last_trade_time := some now },
      buyAttempts := 0, sellAttempts := 1,
      buySucceeded := false, sellSucceeded := true,
      msgs := [Msg.sellSummary] }
  else
    { state := s, buyAttempts := 0, sellAttempts := 1,
      buySucceeded := false, sellSucceeded := false,
      msgs := [Msg.sellFailed] }

/-- The threshold comparison of `check_exit_conditions` (main.py lines
286–296): `profit_percentage = (current_price - entry_price)/entry_price`;
profit exit when `profit_percentage >= PROFIT_THRESHOLD`, else stop-loss
exit when `profit_percentage <= -STOP_LOSS`, else no exit. -/
def exitDecision (p : Params) (entry_price current_price : ℚ) :
    Option ExitReason :=
  let profit_percentage := (current_price - entry_price) / entry_price
  if p.PROFIT_THRESHOLD ≤ profit_percentage then some ExitReason.profit
  else if profit_percentage ≤ -p.STOP_LOSS then some ExitReason.stop_loss
  else none

/-- `check_exit_conditions(current_price)` (main.py lines 281–296):
returns at once when not in position, otherwise sells with the reason
chosen by the if/elif threshold ladder. -/
def check_exit_conditions (p : Params) (s : BotState) (now : ℕ)
    (current_price pi_amount : ℚ) (orderOk : Bool) : TradeResult :=
  if s.in_position = false then noop s []
  else
    match exitDecision p s.entry_price current_price with
    | some r => sell_pi s now current_price pi_amount r orderOk
    | none => noop s []

/-!
## Signal Analyzer (`analyze_market`, main.py lines 119–182)

The candle fetch is modelled by its result: `closes`, the list of candle
close prices (newest last), plus the ticker's `change_24h`.  The one
random draw of the function is modelled by `randHit : Bool`, true exactly
when `random.random() < 0.2`.
-/

/-- `returns = [closes[i]/closes[i-1] - 1 for i in range(1, len(closes))]`
(main.py line 131). -/
def returnsOf : List ℚ → List ℚ
  | a :: b :: rest => (b / a - 1) :: returnsOf (b :: rest)
  | _ => []

/-- `volatility = sum(abs(r) for r in returns) / len(returns)`
(main.py line 132). -/
def volatilityOf (returns : List ℚ) : ℚ :=
  (returns.map (fun r => |r|)).sum / returns.length

/-- `gains = sum(r for r in returns if r > 0)` (main.py line 135). -/
def gainsOf (returns : List ℚ) : ℚ :=
  (returns.filter (fun r => 0 < r)).sum

/-- `losses = sum(abs(r) for r in returns if r < 0)` (main.py line 136). -/
def lossesOf (returns : List ℚ) : ℚ :=
  ((returns.filter (fun r => r < 0)).map (fun r => |r|)).sum

/-- RSI (main.py lines 138–142): `100` when `losses == 0`, otherwise
`100 - 100/(1 + gains/losses)`. -/
def rsiOf (returns : List ℚ) : ℚ :=
  if lossesOf returns = 0 then 100
  else 100 - 100 / (1 + gainsOf returns / lossesOf returns)

/-- Python `closes[-n:]`: the last `n` elements (the whole list when it is
shorter than `n`). -/
def lastN (n : ℕ) (l : List ℚ) : List ℚ := l.drop (l.length - n)

/-- `sma_short = sum(closes[-5:]) / 5` (main.py line 145). -/
def sma_short (closes : List ℚ) : ℚ := (lastN 5 closes).sum / 5

/-- `sma_long = sum(closes[-15:]) / 15` (main.py line 146). -/
def sma_long (closes : List ℚ) : ℚ := (lastN 15 closes).sum / 15

/-- `risk_score` accumulation (main.py lines 149–171), in the source's
evaluation order: trend, volatility, the RSI if/elif ladder, the 24h dip,
then the single random aggressiveness draw. -/
def risk_score (closes : List ℚ) (change_24h : ℚ) (randHit : Bool) : ℤ :=
  let returns := returnsOf closes
  let r1 : ℤ := if sma_long closes < sma_short closes then 0 + 3 else 0
  let r2 := if VOLATILITY_THRESHOLD < volatilityOf returns then r1 + 2 else r1
  let r3 :=
    if rsiOf returns < 30 then r2 + 3
    else if 70 < rsiOf returns then r2 - 3
    else r2
  let r4 := if change_24h < -5 then r3 + 2 else r3
  if randHit then r4 + 4 else r4

/-- The five deterministic additive terms of the score, in source order:
trend (+3), volatility (+2), RSI oversold (+3), RSI overbought (−3),
24h dip (+2). -/
def detTerms (closes : List ℚ) (change_24h : ℚ) : List ℤ :=
  let returns := returnsOf closes
  [ if sma_long closes < sma_short closes then 3 else 0,
    if VOLATILITY_THRESHOLD < volatilityOf returns then 2 else 0,
    if rsiOf returns < 30 then 3 else 0,
    if 70 < rsiOf returns then -3 else 0,
    if change_24h < -5 then 2 else 0 ]

/-- `buy_signal = risk_score >= 4` (main.py line 176). -/
def buy_signal (closes : List ℚ) (change_24h : ℚ) (randHit : Bool) : Bool :=
  4 ≤ risk_score closes change_24h randHit

/-- `analyze_market` (main.py lines 119–182) on a successful data fetch:
returns the buy signal and the snapshot price. -/
def analyze_market (closes : List ℚ) (change_24h : ℚ) (randHit : Bool)
    (price : ℚ) : Bool × ℚ :=
  (buy_signal closes change_24h randHit, price)

/-!
## Autonomous loop body and manual commands
-/

/-- One iteration of `trading_loop` (main.py lines 307–337) on a
successful market-data fetch.  When in position the exit check runs; when
flat, the cooldown gate `(datetime.now() - last_trade_time).seconds <
TRADE_COOLDOWN` is consulted first — `timedelta.seconds` is the
seconds-of-day component of the elapsed time, i.e. `(now - t) % 86400`
for a non-negative whole-second delta, and a Python `None` timestamp is
falsy so the gate is skipped entirely.  Past the gate the 30%-chance
analysis chatter (`chatterHit`) is sent and `analyze_market`'s signal
decides whether `buy_pi` runs. -/
def cycleStep (p : Params) (s : BotState) (now : ℕ)
    (current_price balance pi_amount : ℚ) (buySignal : Bool)
    (chatterHit : Bool) (orderOk : Bool) : TradeResult :=
  if s.in_position then
    check_exit_conditions p s now current_price pi_amount orderOk
  else
    let chatter := if chatterHit then [Msg.analysisChatter] else []
    match s.last_trade_time with
    | some t =>
        if (now - t) % 86400 < TRADE_COOLDOWN then noop s []
        else if buySignal then
          let r := buy_pi p s now current_price balance orderOk
          { r with msgs := chatter ++ r.msgs }
        else noop s chatter
    | none =>
        if buySignal then
          let r := buy_pi p s now current_price balance orderOk
          { r with msgs := chatter ++ r.msgs }
        else noop s chatter

/-- `buy_command` (main.py lines 375–385): rejected while in position,
otherwise runs `buy_pi` with no cooldown consultation. -/
def buy_command (p : Params) (s : BotState) (now : ℕ)
    (current_price balance : ℚ) (orderOk : Bool) : TradeResult :=
  if s.in_position then noop s [Msg.alreadyInPosition]
  else
    let r := buy_pi p s now current_price balance orderOk
    { r with msgs := Msg.manualBuyAck :: r.msgs }

/-- `sell_command` (main.py lines 388–398): rejected while flat,
otherwise runs `sell_pi` with reason "manual". -/
def sell_command (s : BotState) (now : ℕ) (current_price pi_amount : ℚ)
    (orderOk : Bool) : TradeResult :=
  if s.in_position = false then noop s [Msg.noPosition]
  else
    let r := sell_pi s now current_price pi_amount ExitReason.manual orderOk
    { r with msgs := Msg.manualSellAck :: r.msgs }

/-- `set_params_command` (main.py lines 401–425).  Each argument is
modelled by its parse outcome: `some v` when `float(arg)` yields `v`,
`none` when it raises `ValueError`.  The source assigns the three globals
one after another inside a `try`, with no sign check; a parse failure on
a later argument is caught after the earlier assignments already
happened. -/
def set_params_command (p : Params) (args : List (Option ℚ)) :
    Params × List Msg :=
  if args.length ≠ 3 then (p, [Msg.paramsUsage])
  else
    match args with
    | [a0, a1, a2] =>
        match a0 with
        | none => (p, [Msg.paramsError])
        | some v0 =>
            let p0 := { p with BASE_ORDER_SIZE := v0 }
            match a1 with
            | none => (p0, [Msg.paramsError])
            | some v1 =>
                let p1 := { p0 with PROFIT_THRESHOLD := v1 }
                match a2 with
                | none => (p1, [Msg.paramsError])
                | some v2 =>
                    ({ p1 with STOP_LOSS := v2 }, [Msg.paramsUpdated])
    | _ => (p, [Msg.paramsUsage])

/-!
## Event machine over the shared globals

One event is one autonomous loop iteration or one operator command, each
carrying the external inputs (clock, fetched data, order outcome) it
consumes.  This serializes the critical sections, matching the intended
arbitration of the loop and the handlers over the shared globals.
-/

/-- An operation on the shared state, with its external inputs. -/
inductive Event where
  | cycle (now : ℕ) (current_price balance pi_amount : ℚ)
      (buySignal chatterHit orderOk : Bool)
  | manualBuy (now : ℕ) (current_price balance : ℚ) (orderOk : Bool)
  | manualSell (now : ℕ) (current_price pi_amount : ℚ) (orderOk : Bool)
  | setParams (args : List (Option ℚ))

/-- Apply one event to the shared parameters and position state. -/
def step (ps : Params × BotState) (e : Event) :
    (Params × BotState) × TradeResult :=
  match e with
  | Event.cycle now price bal amt sig chat ok =>
      let r := cycleStep ps.1 ps.2 now price bal amt sig chat ok
      ((ps.1, r.state), r)
  | Event.manualBuy now price bal ok =>
      let r := buy_command ps.1 ps.2 now price bal ok
      ((ps.1, r.state), r)
  | Event.manualSell now price amt ok =>
      let r := sell_command ps.2 now price amt ok
      ((ps.1, r.state), r)
  | Event.setParams args =>
      let (p, ms) := set_params_command ps.1 args
      ((p, ps.2), noop ps.2 ms)

/-- Run a sequence of events from a starting configuration. -/
def run (ps : Params × BotState) (es : List Event) : Params × BotState :=
  es.foldl (fun a e => (step a e).1) ps

/-- A configuration reached from the startup configuration (default
parameters, FLAT, no trade yet) by some sequence of operations. -/
def reachable (es : List Event) : Params × BotState :=
  run (defaultParams, initState) es

/-!
## Helper lemmas
-/

/-- `buy_pi` never submits a sell order. -/
lemma buy_pi_no_sell (p : Params) (s : BotState) (now : ℕ)
    (current_price balance : ℚ) (orderOk : Bool) :
    (buy_pi p s now current_price balance orderOk).sellAttempts = 0 ∧
    (buy_pi p s now current_price balance orderOk).sellSucceeded = false := by
  simp only [buy_pi]
  split_ifs <;> exact ⟨rfl, rfl⟩

/-- `sell_pi` never submits a buy order. -/
lemma sell_pi_no_buy (s : BotState) (now : ℕ) (current_price pi_amount : ℚ)
    (r : ExitReason) (orderOk : Bool) :
    (sell_pi s now current_price pi_amount r orderOk).buyAttempts = 0 ∧
    (sell_pi s now current_price pi_amount r orderOk).buySucceeded = false := by
  unfold sell_pi
  split_ifs <;> exact ⟨rfl, rfl⟩

/-- C5: for an entry at price `P > 0` with amount `A` and exit at price
`P2`, the reported profit is exactly `A*(P2-P)` and the reported profit
percentage is exactly the ratio `(P2-P)/P` denominated in percent (the
code multiplies the ratio by 100 and prints a `%` sign behind it). -/
theorem c5_pl_roundtrip (A P P2 : ℚ) (hP : 0 < P) (hA : 0 < A) :
    profit_loss A P P2 = A * (P2 - P) ∧
    profit_percent A P P2 = (P2 - P) / P * 100 := by
  constructor
  · unfold profit_loss exit_value entry_value
    ring
  · unfold profit_percent profit_loss exit_value entry_value
    field_simp
    ring

/-- Witness for C5 at `A = 1`, `P = 100`, `P2 = 103`. -/
theorem c5_pl_roundtrip_witness :
    profit_loss 1 100 103 = 1 * (103 - 100) ∧
    profit_percent 1 100 103 = (103 - 100) / 100 * 100 :=
  c5_pl_roundtrip 1 100 103 (by norm_num) (by norm_num)

/-- C4: when order placement raises (`orderOk = false`) on a buy or sell
attempt that reached the exchange call, the position state — including
`entry_price` and `last_trade_time` — is exactly what it was, a failure
notification is sent, and exactly one order submission happened (no
retry within the cycle). -/
theorem c4_execution_atomicity (p : Params) (s : BotState) (now : ℕ)
    (current_price balance pi_amount : ℚ) (r : ExitReason) :
    (10 ≤ balance * p.BASE_ORDER_SIZE →
      buy_pi p s now current_price balance false =
        { state := s, buyAttempts := 1, sellAttempts := 0,
          buySucceeded := false, sellSucceeded := false,
          msgs := [Msg.buyFailed] }) ∧
    (10 ≤ pi_amount * current_price →
      sell_pi s now current_price pi_amount r false =
        { state := s, buyAttempts := 0, sellAttempts := 1,
          buySucceeded := false, sellSucceeded := false,
          msgs := [Msg.sellFailed] }) := by
  constructor
  · intro h
    simp only [buy_pi]
    rw [if_neg (not_lt.mpr h)]
    simp
  · intro h
    simp only [sell_pi]
    rw [if_neg (not_lt.mpr h)]
    simp

/-- Witness for C4 with balance 100 × default 85% fraction and a 1 PI
position at price 100. -/
theorem c4_execution_atomicity_witness :
    buy_pi defaultParams initState 7 50 100 false =
      { state := initState, buyAttempts := 1, sellAttempts := 0,
        buySucceeded := false, sellSucceeded := false,
        msgs := [Msg.buyFailed] } ∧
    sell_pi initState 7 100 1 ExitReason.profit false =
      { state := initState, buyAttempts := 0, sellAttempts := 1,
        buySucceeded := false, sellSucceeded := false,
        msgs := [Msg.sellFailed] } :=
  ⟨(c4_execution_atomicity defaultParams initState 7 50 100 1
      ExitReason.profit).1 (by norm_num [defaultParams]),
   (c4_execution_atomicity defaultParams initState 7 100 100 1
      ExitReason.profit).2 (by norm_num)⟩

/-- C7: an entry whose notional `balance * BASE_ORDER_SIZE` is under the
fixed 10-USDT floor is rejected with no order and no state change, and an
exit whose position value `pi_amount * price` is under the same floor is
skipped as dust with no order and no state change. -/
theorem c7_minimum_size_guard (p : Params) (s : BotState) (now : ℕ)
    (current_price balance pi_amount : ℚ) (r : ExitReason) (orderOk : Bool) :
    (balance * p.BASE_ORDER_SIZE < 10 →
      buy_pi p s now current_price balance orderOk =
        { state := s, buyAttempts := 0, sellAttempts := 0,
          buySucceeded := false, sellSucceeded := false,
          msgs := [Msg.balanceTooLow] }) ∧
    (pi_amount * current_price < 10 →
      sell_pi s now current_price pi_amount r orderOk =
        { state := s, buyAttempts := 0, sellAttempts := 0,
          buySucceeded := false, sellSucceeded := false,
          msgs := [Msg.dustPosition] }) := by
  constructor
  · intro h
    simp only [buy_pi]
    rw [if_pos h]
    rfl
  · intro h
    simp only [sell_pi]
    rw [if_pos h]
    rfl

/-- Witness for C7: a 5-USDT balance entry and a 0.05-PI dust position. -/
theorem c7_minimum_size_guard_witness :
    buy_pi defaultParams initState 7 50 5 true =
      { state := initState, buyAttempts := 0, sellAttempts := 0,
        buySucceeded := false, sellSucceeded := false,
        msgs := [Msg.balanceTooLow] } ∧
    sell_pi initState 7 50 (5/100) ExitReason.manual true =
      { state := initState, buyAttempts := 0, sellAttempts := 0,
        buySucceeded := false, sellSucceeded := false,
        msgs := [Msg.dustPosition] } :=
  ⟨(c7_minimum_size_guard defaultParams initState 7 50 5 1
      ExitReason.manual true).1 (by norm_num [defaultParams]),
   (c7_minimum_size_guard defaultParams initState 7 50 5 (5/100)
      ExitReason.manual true).2 (by norm_num)⟩

/-- C6: while LONG with entry `E` and price `P`, and with (as the spec's
parameter invariant demands) strictly positive thresholds, the if/elif
ladder exits with reason profit iff `(P-E)/E ≥ profitThreshold`, with
reason stop-loss iff `(P-E)/E ≤ -stopLossThreshold`, and otherwise does
not exit; and when in position the decided reason is exactly what
`check_exit_conditions` passes to `sell_pi`. -/
theorem c6_exit_rule (p : Params) (E P : ℚ)
    (hpt : 0 < p.PROFIT_THRESHOLD) (hsl : 0 < p.STOP_LOSS) :
    (exitDecision p E P = some ExitReason.profit ↔
      p.PROFIT_THRESHOLD ≤ (P - E) / E) ∧
    (exitDecision p E P = some ExitReason.stop_loss ↔
      (P - E) / E ≤ -p.STOP_LOSS) ∧
    (exitDecision p E P = none ↔
      ¬(p.PROFIT_THRESHOLD ≤ (P - E) / E) ∧
      ¬((P - E) / E ≤ -p.STOP_LOSS)) ∧
    (∀ (s : BotState) (now : ℕ) (pi_amount : ℚ) (orderOk : Bool)
        (r : ExitReason),
      s.in_position = true → s.entry_price = E →
      exitDecision p E P = some r →
      check_exit_conditions p s now P pi_amount orderOk =
        sell_pi s now P pi_amount r orderOk) := by
  refine ⟨?_, ?_, ?_, ?_⟩
  · simp only [exitDecision]
    by_cases h1 : p.PROFIT_THRESHOLD ≤ (P - E) / E <;> simp [h1]
  · simp only [exitDecision]
    by_cases h1 : p.PROFIT_THRESHOLD ≤ (P - E) / E
    · have h2 : ¬((P - E) / E ≤ -p.STOP_LOSS) := by
        intro hc
        linarith
      simp [h1, h2]
    · by_cases h2 : (P - E) / E ≤ -p.STOP_LOSS <;> simp [h1, h2]
  · simp only [exitDecision]
    by_cases h1 : p.PROFIT_THRESHOLD ≤ (P - E) / E
    · simp [h1]
    · by_cases h2 : (P - E) / E ≤ -p.STOP_LOSS <;> simp [h1, h2]
  · intro s now pi_amount orderOk r hpos hep hd
    unfold check_exit_conditions
    rw [hpos, hep, hd]
    simp

/-- Witness for C6 at the spec's scenario: default thresholds (3% / 5%),
entry 100, prices 103 / 94.9 / 98. -/
theorem c6_exit_rule_witness :
    exitDecision defaultParams 100 103 = some ExitReason.profit ∧
    exitDecision defaultParams 100 (949/10) = some ExitReason.stop_loss ∧
    exitDecision defaultParams 100 98 = none :=
  ⟨(c6_exit_rule defaultParams 100 103 (by norm_num [defaultParams])
      (by norm_num [defaultParams])).1.mpr (by norm_num [defaultParams]),
   (c6_exit_rule defaultParams 100 (949/10) (by norm_num [defaultParams])
      (by norm_num [defaultParams])).2.1.mpr (by norm_num [defaultParams]),
   (c6_exit_rule defaultParams 100 98 (by norm_num [defaultParams])
      (by norm_num [defaultParams])).2.2.1.mpr
     (by constructor <;> norm_num [defaultParams])⟩

/-- Counterexample to C3: `/set_params -1 0.03 0.05` has all three
arguments parsable but the first non-positive, so the claim demands a
rejection that leaves the parameters unchanged; the code (which never
checks signs) updates them. -/
theorem c3_set_params_counterexample :
    ((-1 : ℚ) ≤ 0) ∧
    (set_params_command defaultParams
        [some (-1), some (3/100), some (5/100)]).1 ≠ defaultParams := by
  refine ⟨by norm_num, fun h => ?_⟩
  have hb := congrArg Params.BASE_ORDER_SIZE h
  simp only [set_params_command, defaultParams] at hb
  norm_num at hb

/-- C3 (amended): with exactly three arguments the values are assigned
left to right with no positivity check — if all three parse the three
parameters take the parsed values of whatever sign; a parse failure is
reported as a parameter error but the assignments made before it stand
(partial update); a wrong argument count is rejected with the parameters
untouched. -/
theorem c3_set_params_amended (p : Params) (v0 v1 v2 : ℚ)
    (o1 o2 : Option ℚ) (args : List (Option ℚ)) :
    (args.length ≠ 3 →
      set_params_command p args = (p, [Msg.paramsUsage])) ∧
    (set_params_command p [some v0, some v1, some v2] =
      ({ BASE_ORDER_SIZE := v0, PROFIT_THRESHOLD := v1, STOP_LOSS := v2 },
        [Msg.paramsUpdated])) ∧
    (set_params_command p [none, o1, o2] = (p, [Msg.paramsError])) ∧
    (set_params_command p [some v0, none, o2] =
      ({ p with BASE_ORDER_SIZE := v0 }, [Msg.paramsError])) ∧
    (set_params_command p [some v0, some v1, none] =
      ({ p with BASE_ORDER_SIZE := v0, PROFIT_THRESHOLD := v1 },
        [Msg.paramsError])) := by
  refine ⟨fun h => ?_, ?_, ?_, ?_, ?_⟩
  · simp only [set_params_command, if_pos h]
  · rfl
  · rfl
  · rfl
  · rfl

/-- Witness for C3's amended statement: a wrong argument count leaves the
default parameters untouched, and a full parse of `0.5 0.04 0.06`
updates all three. -/
theorem c3_set_params_amended_witness :
    set_params_command defaultParams [some 1] =
      (defaultParams, [Msg.paramsUsage]) ∧
    set_params_command defaultParams [some (1/2), some (4/100), some (6/100)] =
      ({ BASE_ORDER_SIZE := 1/2, PROFIT_THRESHOLD := 4/100,
         STOP_LOSS := 6/100 }, [Msg.paramsUpdated]) :=
  ⟨(c3_set_params_amended defaultParams 1 1 1 none none [some 1]).1
      (by norm_num),
   (c3_set_params_amended defaultParams (1/2) (4/100) (6/100)
      none none []).2.1⟩

/-- The sum of the filtered positive returns is non-negative. -/
lemma gainsOf_nonneg (returns : List ℚ) : 0 ≤ gainsOf returns := by
  apply List.sum_nonneg
  intro x hx
  rw [List.mem_filter] at hx
  have : (0 : ℚ) < x := by
    have := hx.2
    simpa using this
  linarith

/-- The sum of the absolute values of the negative returns is
non-negative. -/
lemma lossesOf_nonneg (returns : List ℚ) : 0 ≤ lossesOf returns := by
  apply List.sum_nonneg
  intro x hx
  rw [List.mem_map] at hx
  obtain ⟨r, _, rfl⟩ := hx
  exact abs_nonneg r

/-- C9: on any candle window of at least 16 bars the computed RSI lies in
`[0, 100]`, and it equals 100 exactly when the loss sum is zero. -/
theorem c9_rsi_bounds (closes : List ℚ) (_hlen : 16 ≤ closes.length) :
    (0 ≤ rsiOf (returnsOf closes) ∧ rsiOf (returnsOf closes) ≤ 100) ∧
    (rsiOf (returnsOf closes) = 100 ↔ lossesOf (returnsOf closes) = 0) := by
  have hg := gainsOf_nonneg (returnsOf closes)
  have hl0 := lossesOf_nonneg (returnsOf closes)
  by_cases hl : lossesOf (returnsOf closes) = 0
  · rw [rsiOf, if_pos hl]
    exact ⟨⟨by norm_num, le_refl 100⟩, ⟨fun _ => hl, fun _ => rfl⟩⟩
  · have hlpos : 0 < lossesOf (returnsOf closes) :=
      lt_of_le_of_ne hl0 (Ne.symm hl)
    have hq : 0 ≤ gainsOf (returnsOf closes) / lossesOf (returnsOf closes) :=
      div_nonneg hg (le_of_lt hlpos)
    have hdle : 100 / (1 + gainsOf (returnsOf closes) /
        lossesOf (returnsOf closes)) ≤ 100 :=
      div_le_self (by norm_num) (by linarith)
    have hdpos : 0 < 100 / (1 + gainsOf (returnsOf closes) /
        lossesOf (returnsOf closes)) :=
      div_pos (by norm_num) (by linarith)
    rw [rsiOf, if_neg hl]
    refine ⟨⟨by linarith, by linarith⟩, ⟨fun heq => ?_, fun hc => absurd hc hl⟩⟩
    exfalso
    linarith

/-- Witness for C9 on a flat 16-bar window (all closes 1, so no losses
and RSI = 100). -/
theorem c9_rsi_bounds_witness :
    (0 ≤ rsiOf (returnsOf [1, 1, 1, 1, 1, 1, 1, 1, 1, 1, 1, 1, 1, 1, 1, 1]) ∧
      rsiOf (returnsOf [1, 1, 1, 1, 1, 1, 1, 1, 1, 1, 1, 1, 1, 1, 1, 1]) ≤ 100) ∧
    (rsiOf (returnsOf [1, 1, 1, 1, 1, 1, 1, 1, 1, 1, 1, 1, 1, 1, 1, 1]) = 100 ↔
      lossesOf (returnsOf [1, 1, 1, 1, 1, 1, 1, 1, 1, 1, 1, 1, 1, 1, 1, 1]) = 0) :=
  c9_rsi_bounds [1, 1, 1, 1, 1, 1, 1, 1, 1, 1, 1, 1, 1, 1, 1, 1]
    (by norm_num)

/-- C8: the risk score equals the sum of the five deterministic additive
terms taken in any order, plus the single +4 aggressiveness term which
enters exactly once (it is one draw per call, modelled by the one
`randHit` argument); and the buy signal holds exactly when the score
reaches 4. -/
theorem c8_risk_score_perm (closes : List ℚ) (change_24h : ℚ)
    (randHit : Bool) (l : List ℤ)
    (hl : l.Perm (detTerms closes change_24h)) :
    risk_score closes change_24h randHit =
      l.sum + (if randHit then 4 else 0) ∧
    (buy_signal closes change_24h randHit = true ↔
      4 ≤ risk_score closes change_24h randHit) := by
  constructor
  · rw [hl.sum_eq]
    simp only [risk_score, detTerms, List.sum_cons, List.sum_nil]
    split_ifs <;> first | omega | linarith
  · simp [buy_signal]

/-- Witness for C8 on the empty window (RSI 100 so the overbought term
fires): the reversed term list is a permutation giving the same score. -/
theorem c8_risk_score_perm_witness :
    risk_score [] 0 false =
      [(0 : ℤ), 0, -3, 0, 0].sum + (if false then 4 else 0) ∧
    (buy_signal [] 0 false = true ↔ 4 ≤ risk_score [] 0 false) := by
  have hdt : detTerms [] 0 = [0, 0, 0, -3, 0] := by
    norm_num [detTerms, sma_short, sma_long, lastN, volatilityOf, rsiOf,
      gainsOf, lossesOf, returnsOf, VOLATILITY_THRESHOLD]
  exact c8_risk_score_perm [] 0 false [(0 : ℤ), 0, -3, 0, 0]
    (hdt ▸ (by decide : List.Perm [(0 : ℤ), 0, -3, 0, 0] [0, 0, 0, -3, 0]))

/-- C2: an automated entry is gated — if a cycle in FLAT state with a
recorded last trade at `t` submits a buy order, then at least
`TRADE_COOLDOWN` seconds have elapsed; a manual buy is exempt from the
gate (it reaches the exchange whenever the balance check passes, whatever
`last_trade_time` holds); and exits are never blocked by cooldown: in
LONG state the cycle runs the exit check unconditionally and a manual
sell above the dust floor always submits its order. -/
theorem c2_cooldown_gate (p : Params) (s : BotState) (now t : ℕ)
    (current_price balance pi_amount : ℚ) (sig chat ok : Bool) :
    (s.in_position = false → s.last_trade_time = some t →
      0 < (cycleStep p s now current_price balance pi_amount
            sig chat ok).buyAttempts →
      TRADE_COOLDOWN ≤ now - t) ∧
    (s.in_position = false → 10 ≤ balance * p.BASE_ORDER_SIZE →
      (buy_command p s now current_price balance ok).buyAttempts = 1) ∧
    (s.in_position = true →
      cycleStep p s now current_price balance pi_amount sig chat ok =
        check_exit_conditions p s now current_price pi_amount ok) ∧
    (s.in_position = true → 10 ≤ pi_amount * current_price →
      (sell_command s now current_price pi_amount ok).sellAttempts = 1) := by
  refine ⟨?_, ?_, ?_, ?_⟩
  · intro h ht hbuy
    by_contra hn
    push_neg at hn
    have h86 : now - t < 86400 := by
      simp only [TRADE_COOLDOWN] at hn
      omega
    have hm : (now - t) % 86400 < TRADE_COOLDOWN := by
      rw [Nat.mod_eq_of_lt h86]
      exact hn
    simp only [cycleStep, h, ht] at hbuy
    rw [if_pos hm] at hbuy
    simp [noop] at hbuy
  · intro h hbal
    simp only [buy_command, h]
    rw [if_neg (by decide : ¬(false = true))]
    simp only [buy_pi]
    rw [if_neg (not_lt.mpr hbal)]
    split_ifs <;> rfl
  · intro h
    simp [cycleStep, h]
  · intro h hval
    simp only [sell_command, h]
    rw [if_neg (by decide : ¬(true = false))]
    simp only [sell_pi]
    rw [if_neg (not_lt.mpr hval)]
    split_ifs <;> rfl

/-- Witness for C2: a manual buy 10 seconds after a trade goes through,
and a cycle in LONG state runs the exit check. -/
theorem c2_cooldown_gate_witness :
    (buy_command defaultParams
        { in_position := false, entry_price := 0, last_trade_time := some 0 }
        10 1 100 true).buyAttempts = 1 ∧
    cycleStep defaultParams
        { in_position := true, entry_price := 100, last_trade_time := some 0 }
        10 98 0 1 false false true =
      check_exit_conditions defaultParams
        { in_position := true, entry_price := 100, last_trade_time := some 0 }
        10 98 1 true :=
  ⟨(c2_cooldown_gate defaultParams
      { in_position := false, entry_price := 0, last_trade_time := some 0 }
      10 0 1 100 1 false false true).2.1 rfl
      (by norm_num [defaultParams]),
   (c2_cooldown_gate defaultParams
      { in_position := true, entry_price := 100, last_trade_time := some 0 }
      10 0 98 0 1 false false true).2.2.1 rfl⟩

/-- C10: in FLAT state with a recorded last trade at `t`, the automated
entry path is skipped exactly when the seconds-of-day component
`(now - t) % 86400` of the elapsed time is below `TRADE_COOLDOWN` —
whole elapsed days are discarded by `timedelta.seconds`; past the gate
the analysis chatter and, on a signal, `buy_pi` run. -/
theorem c10_cooldown_uses_seconds_component (p : Params) (s : BotState)
    (now t : ℕ) (current_price balance pi_amount : ℚ) (sig chat ok : Bool)
    (hflat : s.in_position = false) (ht : s.last_trade_time = some t) :
    ((now - t) % 86400 < TRADE_COOLDOWN →
      cycleStep p s now current_price balance pi_amount sig chat ok =
        noop s []) ∧
    (¬((now - t) % 86400 < TRADE_COOLDOWN) →
      cycleStep p s now current_price balance pi_amount sig chat ok =
        (if sig then
          { buy_pi p s now current_price balance ok with
            msgs := (if chat then [Msg.analysisChatter] else []) ++
              (buy_pi p s now current_price balance ok).msgs }
         else noop s (if chat then [Msg.analysisChatter] else []))) := by
  constructor
  · intro hm
    simp only [cycleStep, hflat, ht]
    rw [if_neg (by decide : ¬(false = true)), if_pos hm]
  · intro hm
    simp only [cycleStep, hflat, ht]
    rw [if_neg (by decide : ¬(false = true)), if_neg hm]

/-- Witness for C10: one day plus one minute after the last trade
(86460 s elapsed, far beyond the 300 s cooldown) the automated entry is
still skipped, because `86460 % 86400 = 60 < 300`. -/
theorem c10_cooldown_uses_seconds_component_witness :
    cycleStep defaultParams
        { in_position := false, entry_price := 0, last_trade_time := some 0 }
        86460 1 1000 0 true false true =
      noop { in_position := false, entry_price := 0,
             last_trade_time := some 0 } [] ∧
    TRADE_COOLDOWN ≤ 86460 - 0 :=
  ⟨(c10_cooldown_uses_seconds_component defaultParams
      { in_position := false, entry_price := 0, last_trade_time := some 0 }
      86460 0 1 1000 0 true false true rfl rfl).1
      (by norm_num [TRADE_COOLDOWN]),
   by norm_num [TRADE_COOLDOWN]⟩

/-- While LONG, no step of any kind submits or completes a buy order. -/
lemma long_no_buy (p : Params) (s : BotState) (e : Event)
    (h : s.in_position = true) :
    (step (p, s) e).2.buyAttempts = 0 ∧
    (step (p, s) e).2.buySucceeded = false := by
  cases e with
  | cycle now price bal amt sig chat ok =>
      simp only [step, cycleStep, h, if_pos rfl, check_exit_conditions]
      rw [if_neg (by decide : ¬(true = false))]
      cases hd : exitDecision p s.entry_price price with
      | none => exact ⟨rfl, rfl⟩
      | some r => exact sell_pi_no_buy s now price amt r ok
  | manualBuy now price bal ok =>
      simp only [step, buy_command, h, if_pos rfl]
      exact ⟨rfl, rfl⟩
  | manualSell now price amt ok =>
      simp only [step, sell_command, h]
      rw [if_neg (by decide : ¬(true = false))]
      exact sell_pi_no_buy s now price amt ExitReason.manual ok
  | setParams args =>
      exact ⟨rfl, rfl⟩

/-- While FLAT, no step of any kind submits or completes a sell order. -/
lemma flat_no_sell (p : Params) (s : BotState) (e : Event)
    (h : s.in_position = false) :
    (step (p, s) e).2.sellAttempts = 0 ∧
    (step (p, s) e).2.sellSucceeded = false := by
  cases e with
  | cycle now price bal amt sig chat ok =>
      simp only [step, cycleStep, h]
      rw [if_neg (by decide : ¬(false = true))]
      cases ht : s.last_trade_time with
      | none =>
          cases sig with
          | true => exact buy_pi_no_sell p s now price bal ok
          | false => exact ⟨rfl, rfl⟩
      | some t =>
          by_cases hm : (now - t) % 86400 < TRADE_COOLDOWN
          · simp [hm, noop]
          · simp only [hm, if_false]
            cases sig with
            | true => exact buy_pi_no_sell p s now price bal ok
            | false => exact ⟨rfl, rfl⟩
  | manualBuy now price bal ok =>
      simp only [step, buy_command, h]
      rw [if_neg (by decide : ¬(false = true))]
      exact buy_pi_no_sell p s now price bal ok
  | manualSell now price amt ok =>
      simp only [step, sell_command, h, if_pos rfl]
      exact ⟨rfl, rfl⟩
  | setParams args =>
      exact ⟨rfl, rfl⟩

/-- C1: from the FLAT startup configuration, along any sequence of
operations — autonomous cycle steps, manual buys, manual sells, parameter
updates — a LONG state never admits a buy (so LONG is never entered from
LONG, and a manual buy while LONG is rejected leaving everything
unchanged), and a FLAT state never admits a sell or a successful close
(a manual sell while FLAT is rejected with no order issued). -/
theorem c1_position_state_machine (es : List Event) (e : Event)
    (now : ℕ) (price qty : ℚ) (ok : Bool) :
    ((reachable es).2.in_position = true →
      (step (reachable es) e).2.buyAttempts = 0 ∧
      (step (reachable es) e).2.buySucceeded = false) ∧
    ((reachable es).2.in_position = false →
      (step (reachable es) e).2.sellAttempts = 0 ∧
      (step (reachable es) e).2.sellSucceeded = false) ∧
    ((reachable es).2.in_position = true →
      step (reachable es) (Event.manualBuy now price qty ok) =
        (reachable es, noop (reachable es).2 [Msg.alreadyInPosition])) ∧
    ((reachable es).2.in_position = false →
      step (reachable es) (Event.manualSell now price qty ok) =
        (reachable es, noop (reachable es).2 [Msg.noPosition])) := by
  refine ⟨fun h => ?_, fun h => ?_, fun h => ?_, fun h => ?_⟩
  · exact long_no_buy (reachable es).1 (reachable es).2 e h
  · exact flat_no_sell (reachable es).1 (reachable es).2 e h
  · simp [step, buy_command, h, noop]
  · simp [step, sell_command, h, noop]

/-- Witness for C1: after a successful manual buy the configuration is
LONG and a second manual buy submits nothing; from the startup (FLAT)
configuration a manual sell submits nothing, succeeds at nothing, and is
rejected with only the "no position" notification. -/
theorem c1_position_state_machine_witness :
    ((reachable [Event.manualBuy 0 100 100 true]).2.in_position = true ∧
      (step (reachable [Event.manualBuy 0 100 100 true])
        (Event.manualBuy 60 100 100 true)).2.buyAttempts = 0) ∧
    ((reachable []).2.in_position = false ∧
      (step (reachable []) (Event.manualSell 5 100 1 true)).2.sellAttempts = 0 ∧
      (step (reachable []) (Event.manualSell 5 100 1 true)).2.sellSucceeded
        = false ∧
      step (reachable []) (Event.manualSell 5 100 1 true) =
        (reachable [], noop (reachable []).2 [Msg.noPosition])) := by
  have hlong : (reachable [Event.manualBuy 0 100 100 true]).2.in_position
      = true := by
    norm_num [reachable, run, step, buy_command, buy_pi, initState,
      defaultParams, List.foldl]
  have h1 := c1_position_state_machine [Event.manualBuy 0 100 100 true]
    (Event.manualBuy 60 100 100 true) 60 100 100 true
  have h2 := c1_position_state_machine [] (Event.manualSell 5 100 1 true)
    5 100 1 true
  exact ⟨⟨hlong, (h1.1 hlong).1⟩,
    ⟨rfl, (h2.2.1 rfl).1, (h2.2.1 rfl).2, h2.2.2.2 rfl⟩⟩
